import Mathlib

/-!
# Verification of the bridge-transaction submission sequencer and bank-page helpers

Shallow embedding of:
* `useSubmitBridgeTransaction` (the `submitBridgeTransaction` sequencer):
  we model the asynchronous collaborators (`handleApprovalTx`, `handleBridgeTx`,
  `addDestToken`) as functions returning `Except ε _`, and the run of the
  sequencer as a pair of (the list of collaborator calls emitted, in order) and
  (the promise outcome).  Fire-and-forget calls (`addSourceToken`, the
  status-poll dispatch, `history.push`) have no result in the environment,
  which is exactly what makes them unawaited: no failure of theirs can reach
  the outcome of the sequencer.
* the `isIban` / `accountNumber` discriminators of the bank page: JavaScript
  property reads on a possibly-`undefined` value are modelled in
  `Except JsError`, so dereferencing `undefined` is an explicit error value.
* `getHarbourWallet`: `browser.storage.local` is an explicit
  `Option String` state, and `crypto.randomBytes(32)` an explicit entropy
  argument; the function returns the wallet together with the new storage.

JavaScript truthiness is modelled faithfully: `if (bridgeTxMeta.hash)` and
`if (pk.harbourKey)` test truthiness of a `string | undefined`, i.e. the value
is present *and* non-empty.
-/

namespace BridgeSubmit

/-- `zeroAddress()` from `ethereumjs-util`: the native-asset sentinel. -/
def zeroAddress : String := "0x0000000000000000000000000000000000000000"

/-- `DEFAULT_ROUTE` from `helpers/constants/routes`. -/
def DEFAULT_ROUTE : String := "/"

/-- An asset descriptor; the sequencer only reads its `address`. -/
structure AssetInfo where
  address : String
deriving Repr, DecidableEq

/-- The `quote` field of a `QuoteResponse`: the fields the sequencer reads. -/
structure QuoteData where
  bridgeId : String
  bridges : List String
  srcChainId : Nat
  destChainId : Nat
  srcAsset : AssetInfo
  destAsset : AssetInfo
  refuel : Option Bool
deriving Repr, DecidableEq

/-- The approval descriptor: opaque to the sequencer beyond presence. -/
structure ApprovalData where
  data : String
deriving Repr, DecidableEq

/-- A `QuoteResponse`: the quote plus the optional approval transaction data. -/
structure QuoteResponse where
  quote : QuoteData
  approval : Option ApprovalData
deriving Repr, DecidableEq

/-- `TransactionMeta`: id, optional on-chain hash, submission timestamp. -/
structure TransactionMeta where
  id : String
  hash : Option String
  time : Nat
deriving Repr, DecidableEq

/-- The `statusRequest` record built at lines 37–45 of the sequencer. -/
structure StatusRequest where
  bridgeId : String
  srcTxHash : String
  bridge : Option String
  srcChainId : Nat
  destChainId : Nat
  quote : QuoteData
  refuel : Bool
deriving Repr, DecidableEq

/-- One collaborator call emitted by the sequencer, with its arguments. -/
inductive Event where
  | approvalTx (approval : ApprovalData) (quoteResponse : QuoteResponse)
  | bridgeTx (quoteResponse : QuoteResponse) (approvalTxId : Option String)
  | pollStart (statusRequest : StatusRequest) (quoteResponse : QuoteResponse)
      (slippagePercentage : Nat) (startTime : Nat)
  | addSourceToken (quoteResponse : QuoteResponse)
  | addDestToken (quoteResponse : QuoteResponse)
  | setActiveTab (name : String)
  | navigate (route : String)
deriving Repr, DecidableEq

/-- Recognizer: approval-submitter calls. -/
def isApprovalEv : Event → Bool
  | .approvalTx _ _ => true
  | _ => false

/-- Recognizer: bridge-submitter calls. -/
def isBridgeEv : Event → Bool
  | .bridgeTx _ _ => true
  | _ => false

/-- Recognizer: status-poll-begin dispatches. -/
def isPollEv : Event → Bool
  | .pollStart _ _ _ _ => true
  | _ => false

/-- Recognizer: source-token registrations. -/
def isAddSrcEv : Event → Bool
  | .addSourceToken _ => true
  | _ => false

/-- Recognizer: destination-token registrations. -/
def isAddDestEv : Event → Bool
  | .addDestToken _ => true
  | _ => false

/-- Recognizer: active-tab dispatches. -/
def isTabEv : Event → Bool
  | .setActiveTab _ => true
  | _ => false

/-- Recognizer: navigations. -/
def isNavEv : Event → Bool
  | .navigate _ => true
  | _ => false

/-- The awaited collaborators, with `ε` the type of rejection values.
`addSourceToken`, the poll dispatch and `history.push` are fire-and-forget
in the source, so they carry no result here. -/
structure Env (ε : Type) where
  handleApprovalTx : ApprovalData → QuoteResponse → Except ε TransactionMeta
  handleBridgeTx : QuoteResponse → Option String → Except ε TransactionMeta
  addDestToken : QuoteResponse → Except ε Unit

/-- JavaScript truthiness of a `string | undefined` value. -/
def truthyStr : Option String → Bool
  | none => false
  | some s => !s.isEmpty

/-- The `statusRequest` object literal (lines 37–45): `bridges[0]` is
`bridges.head?` and `Boolean(refuel)` is `Option.getD · false`. -/
def mkStatusRequest (quoteResponse : QuoteResponse) (srcTxHash : String) :
    StatusRequest :=
  { bridgeId := quoteResponse.quote.bridgeId
    srcTxHash := srcTxHash
    bridge := quoteResponse.quote.bridges.head?
    srcChainId := quoteResponse.quote.srcChainId
    destChainId := quoteResponse.quote.destChainId
    quote := quoteResponse.quote
    refuel := quoteResponse.quote.refuel.getD false }

/-- Step 1 of the sequencer: `if (quoteResponse?.approval) { approvalTxMeta =
await handleApprovalTx({approval, quoteResponse}) }`.  Returns the events
emitted and, on success, the optional `approvalTxMeta`. -/
def approvalStep {ε : Type} (env : Env ε) (quoteResponse : QuoteResponse) :
    List Event × Except ε (Option TransactionMeta) :=
  match quoteResponse.approval with
  | some approval =>
      ([.approvalTx approval quoteResponse],
        (env.handleApprovalTx approval quoteResponse).map some)
  | none => ([], .ok none)

/-- Lines 36–54: `if (bridgeTxMeta.hash) { ... dispatch(startPollingFor
BridgeTxStatus(...)) }`.  The guard is JS truthiness of `hash : string |
undefined`, so a present-but-empty hash skips the dispatch too. -/
def pollEvents (quoteResponse : QuoteResponse) (bridgeTxMeta : TransactionMeta) :
    List Event :=
  match bridgeTxMeta.hash with
  | some h =>
      if h.isEmpty then []
      else
        [.pollStart (mkStatusRequest quoteResponse h) quoteResponse 0
          bridgeTxMeta.time]
  | none => []

/-- Lines 57–59: `if (srcAsset.address !== zeroAddress()) addSourceToken(...)`,
a fire-and-forget call. -/
def srcTokenEvents (quoteResponse : QuoteResponse) : List Event :=
  if quoteResponse.quote.srcAsset.address ≠ zeroAddress then
    [.addSourceToken quoteResponse]
  else []

/-- Lines 36–67: everything after `handleBridgeTx` resolves — the conditional
poll dispatch, the two conditional token registrations (the destination one
awaited, so its failure aborts the run), the awaited tab dispatch and the
navigation. -/
def afterBridgeStep {ε : Type} (env : Env ε) (quoteResponse : QuoteResponse)
    (bridgeTxMeta : TransactionMeta) : List Event × Except ε Unit :=
  if quoteResponse.quote.destAsset.address ≠ zeroAddress then
    match env.addDestToken quoteResponse with
    | .error e =>
        (pollEvents quoteResponse bridgeTxMeta ++ srcTokenEvents quoteResponse
          ++ [.addDestToken quoteResponse], .error e)
    | .ok _ =>
        (pollEvents quoteResponse bridgeTxMeta ++ srcTokenEvents quoteResponse
          ++ [.addDestToken quoteResponse, .setActiveTab "activity",
              .navigate DEFAULT_ROUTE], .ok ())
  else
    (pollEvents quoteResponse bridgeTxMeta ++ srcTokenEvents quoteResponse
      ++ [.setActiveTab "activity", .navigate DEFAULT_ROUTE], .ok ())

/-- The sequencer `submitBridgeTransaction` (lines 20–67): the ordered list of
collaborator calls it emits, and the outcome of its returned promise. -/
def submitBridgeTransaction {ε : Type} (env : Env ε)
    (quoteResponse : QuoteResponse) : List Event × Except ε Unit :=
  match approvalStep env quoteResponse with
  | (ev1, .error e) => (ev1, .error e)
  | (ev1, .ok approvalTxMeta) =>
      let approvalTxId := approvalTxMeta.map TransactionMeta.id
      match env.handleBridgeTx quoteResponse approvalTxId with
      | .error e => (ev1 ++ [.bridgeTx quoteResponse approvalTxId], .error e)
      | .ok bridgeTxMeta =>
          let rest := afterBridgeStep env quoteResponse bridgeTxMeta
          (ev1 ++ [.bridgeTx quoteResponse approvalTxId] ++ rest.1, rest.2)

/-- The outcome of the bridge-submission step of a run: the error that aborted
the run before or at `handleBridgeTx`, or the bridge `TransactionMeta`. -/
def bridgeResult {ε : Type} (env : Env ε) (quoteResponse : QuoteResponse) :
    Except ε TransactionMeta :=
  match (approvalStep env quoteResponse).2 with
  | .error e => .error e
  | .ok approvalTxMeta =>
      env.handleBridgeTx quoteResponse (approvalTxMeta.map TransactionMeta.id)

end BridgeSubmit

namespace BankPage

/-- The discriminated bank-coordinate shape: an IBAN, or a UK
sort-code/account-number (SCAN) pair. -/
inductive BankCoordinates where
  | iban (iban : String)
  | scan (accountNumber : String) (sortCode : String)
deriving Repr, DecidableEq

/-- A JavaScript runtime error (here: dereferencing `undefined`). -/
inductive JsError where
  | typeError (message : String)
deriving Repr, DecidableEq

/-- The value of the property read `(coord as IbanCoordinates).iban` on a
*present* coordinate: `some` the IBAN string, or `none` for `undefined`
(a SCAN object has no `iban` property). -/
def ibanFieldOf : BankCoordinates → Option String
  | .iban i => some i
  | .scan _ _ => none

/-- The value of `(coord as ScanCoordinates).accountNumber` on a present
coordinate. -/
def accountNumberFieldOf : BankCoordinates → Option String
  | .iban _ => none
  | .scan a _ => some a

/-- `isIban` (lines 56–58): reads `(coord as IbanCoordinates).iban` with no
guard, so `coord = undefined` raises a `TypeError` instead of returning. -/
def isIban (coord : Option BankCoordinates) : Except JsError Bool :=
  match coord with
  | none =>
      .error (.typeError "Cannot read properties of undefined (reading iban)")
  | some c => .ok (ibanFieldOf c).isSome

/-- `accountNumber` (lines 60–67): guards `!coord` first, then delegates to
`isIban` on the now-present coordinate and reads the matching field. -/
def accountNumber (coord : Option BankCoordinates) :
    Except JsError (Option String) :=
  match coord with
  | none => .ok (some "")
  | some c =>
      match isIban (some c) with
      | .error e => .error e
      | .ok true => .ok (ibanFieldOf c)
      | .ok false => .ok (accountNumberFieldOf c)

/-- An ethers `Wallet`, reduced to the private key it is built from. -/
structure Wallet where
  privateKey : String
deriving Repr, DecidableEq

/-- One hexadecimal digit, lower case, as produced by the hex encoding. -/
def hexDigit (n : Nat) : Char :=
  if n < 10 then Char.ofNat (48 + n) else Char.ofNat (87 + n)

/-- Hex encoding of one byte: two lower-case hex digits. -/
def byteToHex (b : Nat) : String :=
  String.mk [hexDigit (b / 16 % 16), hexDigit (b % 16)]

/-- Hex encoding of a byte list, as the buffer-to-hex conversion produces. -/
def bytesToHex : List Nat → String
  | [] => ""
  | b :: bs => byteToHex b ++ bytesToHex bs

/-- The freshly generated key: the hex encoding of the random bytes, with a 0x
tag in front, the random bytes being passed explicitly. -/
def freshHarbourKey (entropy : List Nat) : String :=
  "0x" ++ bytesToHex entropy

/-- `getHarbourWallet` (lines 69–79): `browser.storage.local` is the explicit
`storage` argument (the stored `harbourKey`, when any) and the randomness is
the explicit `entropy` argument; returns the wallet and the new storage.
`if (pk.harbourKey)` is a JS truthiness test, so an empty stored string takes
the generate-and-store branch. -/
def getHarbourWallet (storage : Option String) (entropy : List Nat) :
    Wallet × Option String :=
  match storage with
  | some k =>
      if k.isEmpty then
        (⟨freshHarbourKey entropy⟩, some (freshHarbourKey entropy))
      else
        (⟨k⟩, some k)
  | none => (⟨freshHarbourKey entropy⟩, some (freshHarbourKey entropy))

end BankPage

namespace BridgeSubmit

/-- A concrete quote with an approval step and two non-native assets. -/
def sampleQuote : QuoteResponse :=
  { quote :=
      { bridgeId := "bridge-1"
        bridges := ["hop", "celer"]
        srcChainId := 1
        destChainId := 10
        srcAsset := ⟨"0xaaa"⟩
        destAsset := ⟨"0xbbb"⟩
        refuel := some true }
    approval := some ⟨"approve"⟩ }

/-- A concrete quote with no approval and both assets native. -/
def sampleQuoteNoApproval : QuoteResponse :=
  { quote :=
      { bridgeId := "bridge-1"
        bridges := ["hop"]
        srcChainId := 1
        destChainId := 10
        srcAsset := ⟨zeroAddress⟩
        destAsset := ⟨zeroAddress⟩
        refuel := none }
    approval := none }

/-- The approval meta the sample environment returns. -/
def sampleApprovalMeta : TransactionMeta := ⟨"approval-tx", some "0xa1", 5⟩

/-- The bridge meta the sample environment returns. -/
def sampleBridgeMeta : TransactionMeta := ⟨"bridge-tx", some "0xAB", 1000⟩

/-- A bridge meta whose hash is present but empty — defined yet falsy. -/
def emptyHashMeta : TransactionMeta := ⟨"bridge-tx", some "", 1000⟩

/-- A bridge meta with no hash at all. -/
def noHashMeta : TransactionMeta := ⟨"bridge-tx", none, 1000⟩

/-- A fully successful collaborator environment. -/
def sampleEnv : Env String :=
  { handleApprovalTx := fun _ _ => .ok sampleApprovalMeta
    handleBridgeTx := fun _ _ => .ok sampleBridgeMeta
    addDestToken := fun _ => .ok () }

/-- Like `sampleEnv` but the bridge submission rejects. -/
def sampleEnvBridgeFail : Env String :=
  { sampleEnv with handleBridgeTx := fun _ _ => .error "bridge rejected" }

/-- Like `sampleEnv` but the bridge meta carries an empty hash. -/
def sampleEnvEmptyHash : Env String :=
  { sampleEnv with handleBridgeTx := fun _ _ => .ok emptyHashMeta }

/-- Like `sampleEnv` but the bridge meta carries no hash. -/
def sampleEnvNoHash : Env String :=
  { sampleEnv with handleBridgeTx := fun _ _ => .ok noHashMeta }

/-- Like `sampleEnv` but destination-token registration rejects. -/
def sampleEnvDestFail : Env String :=
  { sampleEnv with addDestToken := fun _ => .error "dest add failed" }

end BridgeSubmit

namespace BridgeSubmit

/-- Case analysis of the approval step: skipped, succeeded, or failed. -/
lemma approval_cases {ε : Type} (env : Env ε) (q : QuoteResponse) :
    (q.approval = none ∧ approvalStep env q = ([], .ok none))
    ∨ (∃ a m, q.approval = some a ∧ env.handleApprovalTx a q = .ok m
        ∧ approvalStep env q = ([.approvalTx a q], .ok (some m)))
    ∨ (∃ a e, q.approval = some a ∧ env.handleApprovalTx a q = .error e
        ∧ approvalStep env q = ([.approvalTx a q], .error e)) := by
  rcases hA : q.approval with _ | a
  · exact Or.inl ⟨rfl, by simp [approvalStep, hA]⟩
  · rcases hM : env.handleApprovalTx a q with e | m
    · exact Or.inr (Or.inr ⟨a, e, rfl, hM,
        by simp [approvalStep, hA, hM, Except.map]⟩)
    · exact Or.inr (Or.inl ⟨a, m, rfl, hM,
        by simp [approvalStep, hA, hM, Except.map]⟩)

/-- Case analysis of a whole run: aborted at the approval step, aborted at the
bridge step, or reached the post-bridge steps. -/
lemma submit_cases {ε : Type} (env : Env ε) (q : QuoteResponse) :
    (∃ a e, q.approval = some a ∧ env.handleApprovalTx a q = .error e
        ∧ bridgeResult env q = .error e
        ∧ submitBridgeTransaction env q = ([.approvalTx a q], .error e))
    ∨ (∃ ev1 am e, approvalStep env q = (ev1, .ok am)
        ∧ env.handleBridgeTx q (am.map TransactionMeta.id) = .error e
        ∧ bridgeResult env q = .error e
        ∧ submitBridgeTransaction env q
            = (ev1 ++ [.bridgeTx q (am.map TransactionMeta.id)], .error e))
    ∨ (∃ ev1 am bm, approvalStep env q = (ev1, .ok am)
        ∧ env.handleBridgeTx q (am.map TransactionMeta.id) = .ok bm
        ∧ bridgeResult env q = .ok bm
        ∧ submitBridgeTransaction env q
            = (ev1 ++ [.bridgeTx q (am.map TransactionMeta.id)]
                ++ (afterBridgeStep env q bm).1,
               (afterBridgeStep env q bm).2)) := by
  rcases approval_cases env q with ⟨hA, hS⟩ | ⟨a, m, hA, hM, hS⟩
    | ⟨a, e, hA, hM, hS⟩
  · rcases hB : env.handleBridgeTx q none with e | bm
    · exact Or.inr (Or.inl ⟨[], none, e, hS, hB,
        by simp [bridgeResult, hS, hB],
        by simp [submitBridgeTransaction, hS, hB]⟩)
    · exact Or.inr (Or.inr ⟨[], none, bm, hS, hB,
        by simp [bridgeResult, hS, hB],
        by simp [submitBridgeTransaction, hS, hB]⟩)
  · rcases hB : env.handleBridgeTx q (some m.id) with e | bm
    · exact Or.inr (Or.inl ⟨[.approvalTx a q], some m, e, hS, hB,
        by simp [bridgeResult, hS, hB],
        by simp [submitBridgeTransaction, hS, hB]⟩)
    · exact Or.inr (Or.inr ⟨[.approvalTx a q], some m, bm, hS, hB,
        by simp [bridgeResult, hS, hB],
        by simp [submitBridgeTransaction, hS, hB]⟩)
  · exact Or.inl ⟨a, e, hA, hM,
      by simp [bridgeResult, hS],
      by simp [submitBridgeTransaction, hS]⟩

/-- The poll-dispatch block emits nothing, or exactly one poll-begin event for
a truthy hash. -/
lemma pollEvents_shape (q : QuoteResponse) (bm : TransactionMeta) :
    pollEvents q bm = []
    ∨ ∃ h, bm.hash = some h ∧ h.isEmpty = false
        ∧ pollEvents q bm = [.pollStart (mkStatusRequest q h) q 0 bm.time] := by
  rcases hh : bm.hash with _ | h
  · exact Or.inl (by simp [pollEvents, hh])
  · cases hE : h.isEmpty
    · exact Or.inr ⟨h, rfl, hE, by simp [pollEvents, hh, hE]⟩
    · exact Or.inl (by simp [pollEvents, hh, hE])

/-- The source-token block emits nothing for the native sentinel, else exactly
one registration. -/
lemma srcTokenEvents_shape (q : QuoteResponse) :
    (q.quote.srcAsset.address = zeroAddress ∧ srcTokenEvents q = [])
    ∨ (q.quote.srcAsset.address ≠ zeroAddress
        ∧ srcTokenEvents q = [.addSourceToken q]) := by
  by_cases hs : q.quote.srcAsset.address = zeroAddress
  · exact Or.inl ⟨hs, by simp [srcTokenEvents, hs]⟩
  · exact Or.inr ⟨hs, by simp [srcTokenEvents, hs]⟩

/-- Any element of the poll-dispatch block is the poll-begin event for a
truthy bridge hash. -/
lemma mem_pollEvents {q : QuoteResponse} {bm : TransactionMeta} {e : Event}
    (he : e ∈ pollEvents q bm) :
    ∃ h, bm.hash = some h ∧ h.isEmpty = false
      ∧ e = .pollStart (mkStatusRequest q h) q 0 bm.time := by
  rcases pollEvents_shape q bm with hP | ⟨h, hh, hE, hP⟩
  · rw [hP] at he
    exact absurd he (List.not_mem_nil e)
  · rw [hP] at he
    exact ⟨h, hh, hE, List.mem_singleton.mp he⟩

/-- Any element of the source-token block is the source registration. -/
lemma mem_srcTokenEvents {q : QuoteResponse} {e : Event}
    (he : e ∈ srcTokenEvents q) : e = .addSourceToken q := by
  rcases srcTokenEvents_shape q with ⟨_, hS⟩ | ⟨_, hS⟩
  · rw [hS] at he
    exact absurd he (List.not_mem_nil e)
  · rw [hS] at he
    exact List.mem_singleton.mp he

/-- The events the approval step emits are approval submissions. -/
lemma approvalStep_events {ε : Type} {env : Env ε} {q : QuoteResponse}
    {ev1 : List Event} {r : Except ε (Option TransactionMeta)}
    (hS : approvalStep env q = (ev1, r)) :
    ∀ e ∈ ev1, isApprovalEv e = true := by
  rcases hA : q.approval with _ | a <;>
    simp [approvalStep, hA] at hS <;>
    rcases hS with ⟨hS, -⟩ <;> subst hS <;> simp [isApprovalEv]

/-- When the approval descriptor is present, the approval step emits its
submission and, on success, hands the resulting meta downstream. -/
lemma approvalStep_ok_some {ε : Type} {env : Env ε} {q : QuoteResponse}
    {a : ApprovalData} {ev1 : List Event} {am : Option TransactionMeta}
    (hA : q.approval = some a) (hS : approvalStep env q = (ev1, .ok am)) :
    ev1 = [.approvalTx a q]
      ∧ ∃ m, env.handleApprovalTx a q = .ok m ∧ am = some m := by
  rcases hM : env.handleApprovalTx a q with e | m
  · simp [approvalStep, hA, hM, Except.map] at hS
  · simp [approvalStep, hA, hM, Except.map] at hS
    obtain ⟨h1, h2⟩ := hS
    refine ⟨?_, m, rfl, ?_⟩
    · first
      | exact h1
      | exact h1.symm
    · first
      | exact h2
      | exact h2.symm

/-- When the approval descriptor is absent, the approval step is silent. -/
lemma approvalStep_ok_none {ε : Type} {env : Env ε} {q : QuoteResponse}
    {ev1 : List Event} {am : Option TransactionMeta}
    (hA : q.approval = none) (hS : approvalStep env q = (ev1, .ok am)) :
    ev1 = [] ∧ am = none := by
  simp [approvalStep, hA] at hS
  obtain ⟨h1, h2⟩ := hS
  refine ⟨h1, ?_⟩
  first
  | exact h2
  | exact h2.symm

/-- Post-bridge steps when the destination asset is the native sentinel. -/
lemma afterBridge_dest_zero {ε : Type} (env : Env ε) (q : QuoteResponse)
    (bm : TransactionMeta) (hd : q.quote.destAsset.address = zeroAddress) :
    afterBridgeStep env q bm
      = (pollEvents q bm ++ srcTokenEvents q
          ++ [.setActiveTab "activity", .navigate DEFAULT_ROUTE], .ok ()) := by
  simp [afterBridgeStep, hd]

/-- Post-bridge steps when the destination token is registered successfully. -/
lemma afterBridge_dest_ok {ε : Type} (env : Env ε) (q : QuoteResponse)
    (bm : TransactionMeta) (hd : q.quote.destAsset.address ≠ zeroAddress)
    (hD : env.addDestToken q = .ok ()) :
    afterBridgeStep env q bm
      = (pollEvents q bm ++ srcTokenEvents q
          ++ [.addDestToken q, .setActiveTab "activity",
              .navigate DEFAULT_ROUTE], .ok ()) := by
  simp [afterBridgeStep, hd, hD]

/-- Post-bridge steps when the awaited destination-token registration fails:
the run stops at that call and the error propagates. -/
lemma afterBridge_dest_err {ε : Type} (env : Env ε) (q : QuoteResponse)
    (bm : TransactionMeta) (e : ε)
    (hd : q.quote.destAsset.address ≠ zeroAddress)
    (hD : env.addDestToken q = .error e) :
    afterBridgeStep env q bm
      = (pollEvents q bm ++ srcTokenEvents q ++ [.addDestToken q],
         .error e) := by
  simp [afterBridgeStep, hd, hD]

/-- Decomposition of the post-bridge events: poll block, then source-token
block, then an optional destination registration, then an optional
tab-and-navigate tail. -/
lemma afterBridge_key {ε : Type} (env : Env ε) (q : QuoteResponse)
    (bm : TransactionMeta) :
    ∃ dp tl, (afterBridgeStep env q bm).1
        = pollEvents q bm ++ srcTokenEvents q ++ dp ++ tl
      ∧ (dp = [] ∨ dp = [.addDestToken q])
      ∧ (tl = [] ∨ tl = [.setActiveTab "activity", .navigate DEFAULT_ROUTE]) := by
  by_cases hd : q.quote.destAsset.address = zeroAddress
  · exact ⟨[], [.setActiveTab "activity", .navigate DEFAULT_ROUTE],
      by rw [afterBridge_dest_zero env q bm hd]; simp, Or.inl rfl, Or.inr rfl⟩
  · rcases hD : env.addDestToken q with e | u
    · exact ⟨[.addDestToken q], [],
        by rw [afterBridge_dest_err env q bm e hd hD]; simp,
        Or.inr rfl, Or.inl rfl⟩
    · cases u
      exact ⟨[.addDestToken q],
        [.setActiveTab "activity", .navigate DEFAULT_ROUTE],
        by rw [afterBridge_dest_ok env q bm hd hD]; simp,
        Or.inr rfl, Or.inr rfl⟩

/-- The post-bridge events contain no approval and no bridge submissions. -/
lemma afterBridge_filter_approval_bridge {ε : Type} (env : Env ε)
    (q : QuoteResponse) (bm : TransactionMeta) :
    (afterBridgeStep env q bm).1.filter isApprovalEv = []
    ∧ (afterBridgeStep env q bm).1.filter isBridgeEv = [] := by
  rcases afterBridge_key env q bm with ⟨dp, tl, hEq, hdp, htl⟩
  have p1 : (pollEvents q bm).filter isApprovalEv = [] :=
    List.filter_eq_nil_iff.mpr (fun e he => by
      rcases mem_pollEvents he with ⟨h, -, -, rfl⟩
      simp [isApprovalEv])
  have p2 : (pollEvents q bm).filter isBridgeEv = [] :=
    List.filter_eq_nil_iff.mpr (fun e he => by
      rcases mem_pollEvents he with ⟨h, -, -, rfl⟩
      simp [isBridgeEv])
  have s1 : (srcTokenEvents q).filter isApprovalEv = [] :=
    List.filter_eq_nil_iff.mpr (fun e he => by
      rw [mem_srcTokenEvents he]
      simp [isApprovalEv])
  have s2 : (srcTokenEvents q).filter isBridgeEv = [] :=
    List.filter_eq_nil_iff.mpr (fun e he => by
      rw [mem_srcTokenEvents he]
      simp [isBridgeEv])
  have d1 : dp.filter isApprovalEv = [] := by
    rcases hdp with rfl | rfl <;> simp [isApprovalEv]
  have d2 : dp.filter isBridgeEv = [] := by
    rcases hdp with rfl | rfl <;> simp [isBridgeEv]
  have t1 : tl.filter isApprovalEv = [] := by
    rcases htl with rfl | rfl <;> simp [isApprovalEv]
  have t2 : tl.filter isBridgeEv = [] := by
    rcases htl with rfl | rfl <;> simp [isBridgeEv]
  rw [hEq]
  constructor <;> simp [List.filter_append, p1, p2, s1, s2, d1, d2, t1, t2]

/-- Filtering the post-bridge events for poll dispatches yields exactly the
poll block. -/
lemma afterBridge_filter_poll {ε : Type} (env : Env ε) (q : QuoteResponse)
    (bm : TransactionMeta) :
    (afterBridgeStep env q bm).1.filter isPollEv = pollEvents q bm := by
  rcases afterBridge_key env q bm with ⟨dp, tl, hEq, hdp, htl⟩
  rw [hEq]
  have h1 : (pollEvents q bm).filter isPollEv = pollEvents q bm :=
    List.filter_eq_self.mpr (fun e he => by
      rcases mem_pollEvents he with ⟨h, -, -, rfl⟩
      simp [isPollEv])
  have h2 : (srcTokenEvents q).filter isPollEv = [] :=
    List.filter_eq_nil_iff.mpr (fun e he => by
      rw [mem_srcTokenEvents he]
      simp [isPollEv])
  have h3 : dp.filter isPollEv = [] := by
    rcases hdp with rfl | rfl <;> simp [isPollEv]
  have h4 : tl.filter isPollEv = [] := by
    rcases htl with rfl | rfl <;> simp [isPollEv]
  simp [List.filter_append, h1, h2, h3, h4]

/-- Filtering the post-bridge events for source-token registrations yields
exactly the source-token block. -/
lemma afterBridge_filter_src {ε : Type} (env : Env ε) (q : QuoteResponse)
    (bm : TransactionMeta) :
    (afterBridgeStep env q bm).1.filter isAddSrcEv = srcTokenEvents q := by
  rcases afterBridge_key env q bm with ⟨dp, tl, hEq, hdp, htl⟩
  rw [hEq]
  have h1 : (pollEvents q bm).filter isAddSrcEv = [] :=
    List.filter_eq_nil_iff.mpr (fun e he => by
      rcases mem_pollEvents he with ⟨h, -, -, rfl⟩
      simp [isAddSrcEv])
  have h2 : (srcTokenEvents q).filter isAddSrcEv = srcTokenEvents q :=
    List.filter_eq_self.mpr (fun e he => by
      rw [mem_srcTokenEvents he]
      simp [isAddSrcEv])
  have h3 : dp.filter isAddSrcEv = [] := by
    rcases hdp with rfl | rfl <;> simp [isAddSrcEv]
  have h4 : tl.filter isAddSrcEv = [] := by
    rcases htl with rfl | rfl <;> simp [isAddSrcEv]
  simp [List.filter_append, h1, h2, h3, h4]

/-- The approval step emits no events, or the single approval submission. -/
lemma approvalStep_events_shape {ε : Type} {env : Env ε} {q : QuoteResponse}
    {ev1 : List Event} {r : Except ε (Option TransactionMeta)}
    (hS : approvalStep env q = (ev1, r)) :
    ev1 = [] ∨ ∃ a, q.approval = some a ∧ ev1 = [.approvalTx a q] := by
  rcases hA : q.approval with _ | a
  · simp [approvalStep, hA] at hS
    exact Or.inl hS.1
  · simp [approvalStep, hA] at hS
    rcases hS with ⟨h1, -⟩
    right
    refine ⟨a, rfl, ?_⟩
    first
    | exact h1
    | exact h1.symm

/-- Filtering the poll block by a recognizer that rejects poll events. -/
lemma pollEvents_filter_ne (q : QuoteResponse) (bm : TransactionMeta)
    (p : Event → Bool)
    (hp : ∀ req qr sp st, p (.pollStart req qr sp st) = false) :
    (pollEvents q bm).filter p = [] :=
  List.filter_eq_nil_iff.mpr (fun e he => by
    rcases mem_pollEvents he with ⟨h, -, -, rfl⟩
    simp [hp])

/-- Filtering the source-token block by a recognizer that rejects it. -/
lemma srcTokenEvents_filter_ne (q : QuoteResponse) (p : Event → Bool)
    (hp : p (.addSourceToken q) = false) :
    (srcTokenEvents q).filter p = [] :=
  List.filter_eq_nil_iff.mpr (fun e he => by
    rw [mem_srcTokenEvents he]
    simp [hp])

/-- Filtering the approval-step events by a recognizer that rejects approval
submissions. -/
lemma approvalStep_filter_ne {ε : Type} {env : Env ε} {q : QuoteResponse}
    {ev1 : List Event} {r : Except ε (Option TransactionMeta)}
    (hS : approvalStep env q = (ev1, r)) (p : Event → Bool)
    (hp : ∀ a qr, p (.approvalTx a qr) = false) :
    ev1.filter p = [] := by
  rcases approvalStep_events_shape hS with rfl | ⟨a, -, rfl⟩
  · rfl
  · simp [hp]

end BridgeSubmit

namespace BridgeSubmit

/-- C1: for every quote whose `approval` field is present,
`submitBridgeTransaction` invokes the approval submitter exactly once with
that approval and the quote, does so before any bridge submission (the
approval call is the first emitted event), and — once the approval meta is
awaited — invokes the bridge submitter with `approvalTxId` equal to that
meta's id. -/
theorem approval_present_policy {ε : Type} (env : Env ε) (q : QuoteResponse)
    (a : ApprovalData) (hA : q.approval = some a) :
    (submitBridgeTransaction env q).1.filter isApprovalEv = [.approvalTx a q]
    ∧ (∃ rest, (submitBridgeTransaction env q).1 = .approvalTx a q :: rest)
    ∧ (∀ m, env.handleApprovalTx a q = .ok m →
        (submitBridgeTransaction env q).1.filter isBridgeEv
          = [.bridgeTx q (some m.id)]) := by
  rcases submit_cases env q with
      ⟨a2, e, hA2, hM, hBR, hEq⟩
    | ⟨ev1, am, e, hS, hB, hBR, hEq⟩
    | ⟨ev1, am, bm, hS, hB, hBR, hEq⟩
  · rw [hA] at hA2
    obtain rfl : a = a2 := Option.some.inj hA2
    rw [hEq]
    refine ⟨by simp [isApprovalEv], ⟨[], rfl⟩, ?_⟩
    intro m hM2
    rw [hM] at hM2
    cases hM2
  · obtain ⟨rfl, m, hM, rfl⟩ := approvalStep_ok_some hA hS
    rw [hEq]
    refine ⟨by simp [isApprovalEv, isBridgeEv], ⟨_, rfl⟩, ?_⟩
    intro m2 hM2
    rw [hM] at hM2
    obtain rfl : m = m2 := Except.ok.inj hM2
    simp [isApprovalEv, isBridgeEv]
  · obtain ⟨rfl, m, hM, rfl⟩ := approvalStep_ok_some hA hS
    have hFA := (afterBridge_filter_approval_bridge env q bm).1
    have hFB := (afterBridge_filter_approval_bridge env q bm).2
    rw [hEq]
    refine ⟨by simp [isApprovalEv, isBridgeEv, List.filter_append, hFA],
      ⟨_, rfl⟩, ?_⟩
    intro m2 hM2
    rw [hM] at hM2
    obtain rfl : m = m2 := Except.ok.inj hM2
    simp [isApprovalEv, isBridgeEv, List.filter_append, hFB]

/-- C1 witness: a successful run on `sampleQuote`, whose approval is present,
emits the approval submission first and exactly once, and the bridge
submission carries the approval meta's id. -/
theorem approval_present_policy_witness :
    (submitBridgeTransaction sampleEnv sampleQuote).1.filter isApprovalEv
      = [.approvalTx ⟨"approve"⟩ sampleQuote]
    ∧ (submitBridgeTransaction sampleEnv sampleQuote).1.filter isBridgeEv
      = [.bridgeTx sampleQuote (some "approval-tx")] :=
  ⟨(approval_present_policy sampleEnv sampleQuote ⟨"approve"⟩ rfl).1,
   (approval_present_policy sampleEnv sampleQuote ⟨"approve"⟩ rfl).2.2
     sampleApprovalMeta rfl⟩

/-- C2: for every quote whose `approval` field is absent, the approval
submitter is never invoked and the bridge submitter is invoked exactly once
with `approvalTxId = undefined`; moreover for every quote, whenever the
approval step does not reject, the bridge submitter is invoked exactly
once. -/
theorem approval_absent_policy {ε : Type} (env : Env ε) (q : QuoteResponse) :
    (q.approval = none →
      (submitBridgeTransaction env q).1.filter isApprovalEv = []
      ∧ (submitBridgeTransaction env q).1.filter isBridgeEv
          = [.bridgeTx q none])
    ∧ ((∃ am, (approvalStep env q).2 = .ok am) →
      ((submitBridgeTransaction env q).1.filter isBridgeEv).length = 1) := by
  rcases submit_cases env q with
      ⟨a2, e, hA2, hM, hBR, hEq⟩
    | ⟨ev1, am, e, hS, hB, hBR, hEq⟩
    | ⟨ev1, am, bm, hS, hB, hBR, hEq⟩
  · constructor
    · intro hA
      rw [hA] at hA2
      cases hA2
    · rintro ⟨am, hOk⟩
      simp [approvalStep, hA2, hM, Except.map] at hOk
  · constructor
    · intro hA
      obtain ⟨rfl, rfl⟩ := approvalStep_ok_none hA hS
      rw [hEq]
      simp [isApprovalEv, isBridgeEv]
    · intro _
      have h1 := approvalStep_filter_ne hS isBridgeEv (fun _ _ => rfl)
      rw [hEq]
      simp [List.filter_append, h1, isBridgeEv]
  · constructor
    · intro hA
      obtain ⟨rfl, rfl⟩ := approvalStep_ok_none hA hS
      have hFA := (afterBridge_filter_approval_bridge env q bm).1
      have hFB := (afterBridge_filter_approval_bridge env q bm).2
      rw [hEq]
      simp [isApprovalEv, isBridgeEv, List.filter_append, hFA, hFB]
    · intro _
      have h1 := approvalStep_filter_ne hS isBridgeEv (fun _ _ => rfl)
      have hFB := (afterBridge_filter_approval_bridge env q bm).2
      rw [hEq]
      simp [List.filter_append, h1, hFB, isBridgeEv]

/-- C2 witness: on `sampleQuoteNoApproval` the run emits no approval call and
exactly one bridge call, with no approval transaction id. -/
theorem approval_absent_policy_witness :
    ((submitBridgeTransaction sampleEnv sampleQuoteNoApproval).1.filter
        isApprovalEv = []
      ∧ (submitBridgeTransaction sampleEnv sampleQuoteNoApproval).1.filter
          isBridgeEv = [.bridgeTx sampleQuoteNoApproval none])
    ∧ ((submitBridgeTransaction sampleEnv sampleQuoteNoApproval).1.filter
        isBridgeEv).length = 1 :=
  ⟨(approval_absent_policy sampleEnv sampleQuoteNoApproval).1 rfl,
   (approval_absent_policy sampleEnv sampleQuoteNoApproval).2 ⟨none, rfl⟩⟩

/-- C4: if the approval step resolves and the bridge submitter rejects with
`e`, the run's promise rejects with the same `e` and none of the later steps
execute: no poll dispatch, no token registration of either kind, no
active-tab dispatch, no navigation. -/
theorem bridge_rejection_propagates {ε : Type} (env : Env ε)
    (q : QuoteResponse) (am : Option TransactionMeta) (e : ε)
    (hA : (approvalStep env q).2 = .ok am)
    (hB : env.handleBridgeTx q (am.map TransactionMeta.id) = .error e) :
    (submitBridgeTransaction env q).2 = .error e
    ∧ (submitBridgeTransaction env q).1.filter isPollEv = []
    ∧ (submitBridgeTransaction env q).1.filter isAddSrcEv = []
    ∧ (submitBridgeTransaction env q).1.filter isAddDestEv = []
    ∧ (submitBridgeTransaction env q).1.filter isTabEv = []
    ∧ (submitBridgeTransaction env q).1.filter isNavEv = [] := by
  rcases submit_cases env q with
      ⟨a2, e2, hA2, hM, hBR, hEq⟩
    | ⟨ev1, am2, e2, hS, hB2, hBR, hEq⟩
    | ⟨ev1, am2, bm, hS, hB2, hBR, hEq⟩
  · simp [approvalStep, hA2, hM, Except.map] at hA
  · have ham : am2 = am := by
      rw [hS] at hA
      exact Option.some.inj (by simpa using hA)
    subst ham
    rw [hB] at hB2
    obtain rfl : e = e2 := Except.error.inj hB2
    rcases approvalStep_events_shape hS with rfl | ⟨a, -, rfl⟩ <;>
      rw [hEq] <;>
      simp [isPollEv, isAddSrcEv, isAddDestEv, isTabEv, isNavEv,
        isApprovalEv, isBridgeEv, List.filter_append]
  · have ham : am2 = am := by
      rw [hS] at hA
      exact Option.some.inj (by simpa using hA)
    subst ham
    rw [hB] at hB2
    cases hB2

/-- C4 witness: with the rejecting bridge submitter, the run on `sampleQuote`
rejects with the same error and emits no post-bridge calls. -/
theorem bridge_rejection_propagates_witness :
    (submitBridgeTransaction sampleEnvBridgeFail sampleQuote).2
        = .error "bridge rejected"
    ∧ (submitBridgeTransaction sampleEnvBridgeFail sampleQuote).1.filter
        isPollEv = []
    ∧ (submitBridgeTransaction sampleEnvBridgeFail sampleQuote).1.filter
        isAddSrcEv = []
    ∧ (submitBridgeTransaction sampleEnvBridgeFail sampleQuote).1.filter
        isAddDestEv = []
    ∧ (submitBridgeTransaction sampleEnvBridgeFail sampleQuote).1.filter
        isTabEv = []
    ∧ (submitBridgeTransaction sampleEnvBridgeFail sampleQuote).1.filter
        isNavEv = [] :=
  bridge_rejection_propagates sampleEnvBridgeFail sampleQuote
    (some sampleApprovalMeta) "bridge rejected" rfl rfl

end BridgeSubmit

namespace BridgeSubmit

/-- C3 counterexample: the poll guard is JS truthiness, not definedness.  With
a bridge meta whose hash is `some ""` — defined but falsy — the status-poll
dispatch does not occur, refuting "if the hash is defined, exactly one
status-poll-begin dispatch occurs". -/
theorem poll_guard_definedness_counterexample :
    bridgeResult sampleEnvEmptyHash sampleQuote = .ok emptyHashMeta
    ∧ emptyHashMeta.hash.isSome = true
    ∧ (submitBridgeTransaction sampleEnvEmptyHash sampleQuote).1.filter
        isPollEv = [] :=
  ⟨rfl, rfl, rfl⟩

/-- C3 (amended): for every run whose bridge step resolves with meta `bm`, if
`bm.hash` is defined and non-empty (truthy) then exactly one status-poll-begin
dispatch occurs, with slippage 0 and the poll start time equal to `bm.time`;
if `bm.hash` is falsy (undefined or empty) no poll dispatch occurs — in
particular no `StatusRequest` is ever built. -/
theorem poll_dispatch_truthy_hash {ε : Type} (env : Env ε)
    (q : QuoteResponse) (bm : TransactionMeta)
    (hBR : bridgeResult env q = .ok bm) :
    (∀ h, bm.hash = some h → h.isEmpty = false →
        (submitBridgeTransaction env q).1.filter isPollEv
          = [.pollStart (mkStatusRequest q h) q 0 bm.time])
    ∧ (truthyStr bm.hash = false →
        (submitBridgeTransaction env q).1.filter isPollEv = []) := by
  rcases submit_cases env q with
      ⟨a2, e, hA2, hM, hBR2, hEq⟩
    | ⟨ev1, am, e, hS, hB, hBR2, hEq⟩
    | ⟨ev1, am, bm2, hS, hB, hBR2, hEq⟩
  · rw [hBR] at hBR2
    cases hBR2
  · rw [hBR] at hBR2
    cases hBR2
  · rw [hBR] at hBR2
    obtain rfl : bm = bm2 := Except.ok.inj hBR2
    have h1 := approvalStep_filter_ne hS isPollEv (fun _ _ => rfl)
    have h2 := afterBridge_filter_poll env q bm
    have hT : (submitBridgeTransaction env q).1.filter isPollEv
        = pollEvents q bm := by
      rw [hEq]
      simp [List.filter_append, h1, h2, isPollEv]
    constructor
    · intro h hh hE
      rw [hT]
      simp [pollEvents, hh, hE]
    · intro hF
      rw [hT]
      rcases hh : bm.hash with _ | h
      · simp [pollEvents, hh]
      · rw [hh] at hF
        simp [truthyStr] at hF
        simp [pollEvents, hh, hF]

/-- C3 witness: on `sampleQuote` the successful run with hash `0xAB` emits
exactly one poll dispatch with slippage 0 and start time 1000, and the run
whose bridge meta has no hash emits none. -/
theorem poll_dispatch_truthy_hash_witness :
    (submitBridgeTransaction sampleEnv sampleQuote).1.filter isPollEv
      = [.pollStart (mkStatusRequest sampleQuote "0xAB") sampleQuote 0 1000]
    ∧ (submitBridgeTransaction sampleEnvNoHash sampleQuote).1.filter isPollEv
      = [] :=
  ⟨(poll_dispatch_truthy_hash sampleEnv sampleQuote sampleBridgeMeta rfl).1
      "0xAB" rfl rfl,
   (poll_dispatch_truthy_hash sampleEnvNoHash sampleQuote noHashMeta rfl).2
      rfl⟩

/-- C5: every successful run's event sequence decomposes as: approval
submissions (at most the one), then the bridge submission, then poll
dispatches, then source-token registrations, then destination-token
registrations, and it ends with the awaited activity-tab dispatch followed by
navigation to the default route. -/
theorem success_run_order {ε : Type} (env : Env ε) (q : QuoteResponse)
    (hOk : (submitBridgeTransaction env q).2 = .ok ()) :
    ∃ ev1 aid pp sp dp,
      (submitBridgeTransaction env q).1
        = ev1 ++ [.bridgeTx q aid] ++ pp ++ sp ++ dp
            ++ [.setActiveTab "activity", .navigate DEFAULT_ROUTE]
      ∧ (∀ e ∈ ev1, isApprovalEv e = true)
      ∧ (∀ e ∈ pp, isPollEv e = true)
      ∧ (∀ e ∈ sp, isAddSrcEv e = true)
      ∧ (∀ e ∈ dp, isAddDestEv e = true) := by
  rcases submit_cases env q with
      ⟨a2, e, hA2, hM, hBR, hEq⟩
    | ⟨ev1, am, e, hS, hB, hBR, hEq⟩
    | ⟨ev1, am, bm, hS, hB, hBR, hEq⟩
  · rw [hEq] at hOk
    simp at hOk
  · rw [hEq] at hOk
    simp at hOk
  · have hA : (afterBridgeStep env q bm).2 = .ok () := by
      rw [hEq] at hOk
      simpa using hOk
    have hTr : (submitBridgeTransaction env q).1
        = ev1 ++ [.bridgeTx q (am.map TransactionMeta.id)]
            ++ (afterBridgeStep env q bm).1 := by
      rw [hEq]
    have hMemA : ∀ e ∈ ev1, isApprovalEv e = true := approvalStep_events hS
    have hPP : ∀ e ∈ pollEvents q bm, isPollEv e = true := fun e he => by
      rcases mem_pollEvents he with ⟨h, -, -, rfl⟩
      rfl
    have hSP : ∀ e ∈ srcTokenEvents q, isAddSrcEv e = true := fun e he => by
      rw [mem_srcTokenEvents he]
      rfl
    by_cases hd : q.quote.destAsset.address = zeroAddress
    · have hAB : (afterBridgeStep env q bm).1
          = pollEvents q bm ++ srcTokenEvents q
              ++ [.setActiveTab "activity", .navigate DEFAULT_ROUTE] := by
        rw [afterBridge_dest_zero env q bm hd]
      refine ⟨ev1, am.map TransactionMeta.id, pollEvents q bm,
        srcTokenEvents q, [], ?_, hMemA, hPP, hSP, by simp⟩
      rw [hTr, hAB]
      simp [List.append_assoc]
    · rcases hD : env.addDestToken q with e0 | u
      · have hAB := afterBridge_dest_err env q bm e0 hd hD
        rw [hAB] at hA
        simp at hA
      · cases u
        have hAB : (afterBridgeStep env q bm).1
            = pollEvents q bm ++ srcTokenEvents q
                ++ [.addDestToken q, .setActiveTab "activity",
                    .navigate DEFAULT_ROUTE] := by
          rw [afterBridge_dest_ok env q bm hd hD]
        refine ⟨ev1, am.map TransactionMeta.id, pollEvents q bm,
          srcTokenEvents q, [.addDestToken q], ?_, hMemA, hPP, hSP,
          by simp [isAddDestEv]⟩
        rw [hTr, hAB]
        simp [List.append_assoc]

/-- C5 witness: the fully successful run on `sampleQuote` decomposes in the
claimed order and ends with the tab dispatch and the navigation. -/
theorem success_run_order_witness :
    ∃ ev1 aid pp sp dp,
      (submitBridgeTransaction sampleEnv sampleQuote).1
        = ev1 ++ [.bridgeTx sampleQuote aid] ++ pp ++ sp ++ dp
            ++ [.setActiveTab "activity", .navigate DEFAULT_ROUTE]
      ∧ (∀ e ∈ ev1, isApprovalEv e = true)
      ∧ (∀ e ∈ pp, isPollEv e = true)
      ∧ (∀ e ∈ sp, isAddSrcEv e = true)
      ∧ (∀ e ∈ dp, isAddDestEv e = true) :=
  success_run_order sampleEnv sampleQuote rfl

/-- C6: every status request carried by a poll dispatch of a run on quote `q`
has the quote's bridge id, the first candidate bridge (`bridges[0]`), the
quote's chain ids, the quote itself, the refuel flag coerced to a strict
boolean, and a source transaction hash that is exactly the hash of the
resolved bridge meta, whose submission time is the poll start time. -/
theorem statusRequest_fields {ε : Type} (env : Env ε) (q : QuoteResponse)
    (req : StatusRequest) (qr : QuoteResponse) (sp st : Nat)
    (hMem : Event.pollStart req qr sp st ∈ (submitBridgeTransaction env q).1) :
    qr = q ∧ sp = 0
    ∧ req.bridgeId = q.quote.bridgeId
    ∧ req.bridge = q.quote.bridges.head?
    ∧ (∀ b bs, q.quote.bridges = b :: bs → req.bridge = some b)
    ∧ req.srcChainId = q.quote.srcChainId
    ∧ req.destChainId = q.quote.destChainId
    ∧ req.quote = q.quote
    ∧ req.refuel = q.quote.refuel.getD false
    ∧ ∃ bm, bridgeResult env q = .ok bm
        ∧ bm.hash = some req.srcTxHash ∧ st = bm.time := by
  rcases submit_cases env q with
      ⟨a2, e, hA2, hM, hBR, hEq⟩
    | ⟨ev1, am, e, hS, hB, hBR, hEq⟩
    | ⟨ev1, am, bm, hS, hB, hBR, hEq⟩
  · rw [hEq] at hMem
    simp at hMem
  · rw [hEq] at hMem
    rcases List.mem_append.mp hMem with hIn | hIn
    · have := approvalStep_events hS _ hIn
      simp [isApprovalEv] at this
    · simp at hIn
  · rw [hEq] at hMem
    rcases List.mem_append.mp hMem with hIn | hIn
    · rcases List.mem_append.mp hIn with hIn2 | hIn2
      · have := approvalStep_events hS _ hIn2
        simp [isApprovalEv] at this
      · simp at hIn2
    · rcases afterBridge_key env q bm with ⟨dp, tl, hEq2, hdp, htl⟩
      rw [hEq2] at hIn
      simp only [List.mem_append] at hIn
      rcases hIn with ((hIn | hIn) | hIn) | hIn
      · rcases mem_pollEvents hIn with ⟨h, hh, hE, heq⟩
        injection heq with e1 e2 e3 e4
        subst e1
        subst e2
        subst e3
        subst e4
        exact ⟨rfl, rfl, rfl, rfl,
          fun b bs hb => by simp [mkStatusRequest, hb],
          rfl, rfl, rfl, rfl, bm, hBR, hh, rfl⟩
      · have := mem_srcTokenEvents hIn
        simp at this
      · rcases hdp with rfl | rfl
        · exact absurd hIn (List.not_mem_nil _)
        · have := List.mem_singleton.mp hIn
          simp at this
      · rcases htl with rfl | rfl
        · exact absurd hIn (List.not_mem_nil _)
        · simp at hIn

/-- C6 witness: the status request of the sample run carries the sample
quote's fields, the first candidate bridge, hash `0xAB` and start time
1000. -/
theorem statusRequest_fields_witness :
    (mkStatusRequest sampleQuote "0xAB").bridgeId
        = sampleQuote.quote.bridgeId
    ∧ (mkStatusRequest sampleQuote "0xAB").bridge
        = sampleQuote.quote.bridges.head?
    ∧ (mkStatusRequest sampleQuote "0xAB").refuel
        = sampleQuote.quote.refuel.getD false
    ∧ ∃ bm, bridgeResult sampleEnv sampleQuote = .ok bm
        ∧ bm.hash = some (mkStatusRequest sampleQuote "0xAB").srcTxHash
        ∧ (1000 : Nat) = bm.time := by
  have h := statusRequest_fields sampleEnv sampleQuote
    (mkStatusRequest sampleQuote "0xAB") sampleQuote 0 1000 (by decide)
  exact ⟨h.2.2.1, h.2.2.2.1, h.2.2.2.2.2.2.2.2.1, h.2.2.2.2.2.2.2.2.2⟩

end BridgeSubmit

namespace BridgeSubmit

/-- C7: a quote whose source asset is the native sentinel never triggers
source-token registration; any other source asset triggers it exactly once in
every run whose bridge step resolves.  (The call is fire-and-forget: the
environment carries no result for it, so no failure of it can be observed.) -/
theorem src_token_policy {ε : Type} (env : Env ε) (q : QuoteResponse) :
    (q.quote.srcAsset.address = zeroAddress →
      (submitBridgeTransaction env q).1.filter isAddSrcEv = [])
    ∧ (q.quote.srcAsset.address ≠ zeroAddress →
      ∀ bm, bridgeResult env q = .ok bm →
        (submitBridgeTransaction env q).1.filter isAddSrcEv
          = [.addSourceToken q]) := by
  rcases submit_cases env q with
      ⟨a2, e, hA2, hM, hBR, hEq⟩
    | ⟨ev1, am, e, hS, hB, hBR, hEq⟩
    | ⟨ev1, am, bm, hS, hB, hBR, hEq⟩
  · constructor
    · intro _
      rw [hEq]
      simp [isAddSrcEv]
    · intro _ bm hBR2
      rw [hBR] at hBR2
      cases hBR2
  · constructor
    · intro _
      rw [hEq]
      simp [List.filter_append,
        approvalStep_filter_ne hS isAddSrcEv (fun _ _ => rfl), isAddSrcEv]
    · intro _ bm hBR2
      rw [hBR] at hBR2
      cases hBR2
  · have hT : (submitBridgeTransaction env q).1.filter isAddSrcEv
        = srcTokenEvents q := by
      rw [hEq]
      simp [List.filter_append,
        approvalStep_filter_ne hS isAddSrcEv (fun _ _ => rfl),
        afterBridge_filter_src, isAddSrcEv]
    constructor
    · intro hz
      rw [hT]
      simp [srcTokenEvents, hz]
    · intro hnz bm2 _
      rw [hT]
      simp [srcTokenEvents, hnz]

/-- C7 witness: the native-source sample quote registers no source token; the
non-native sample quote registers it exactly once. -/
theorem src_token_policy_witness :
    (submitBridgeTransaction sampleEnv sampleQuoteNoApproval).1.filter
        isAddSrcEv = []
    ∧ (submitBridgeTransaction sampleEnv sampleQuote).1.filter isAddSrcEv
        = [.addSourceToken sampleQuote] :=
  ⟨(src_token_policy sampleEnv sampleQuoteNoApproval).1 rfl,
   (src_token_policy sampleEnv sampleQuote).2 (by decide)
     sampleBridgeMeta rfl⟩

/-- C8: a quote whose destination asset is the native sentinel never triggers
destination-token registration; any other destination asset triggers it
exactly once in every run whose bridge step resolves, and the registration is
awaited before the active-tab dispatch: no tab dispatch precedes it, and if
the registration rejects, no tab dispatch happens at all and the run rejects
with that same error. -/
theorem dest_token_policy {ε : Type} (env : Env ε) (q : QuoteResponse) :
    (q.quote.destAsset.address = zeroAddress →
      (submitBridgeTransaction env q).1.filter isAddDestEv = [])
    ∧ (q.quote.destAsset.address ≠ zeroAddress →
      ∀ bm, bridgeResult env q = .ok bm →
        (submitBridgeTransaction env q).1.filter isAddDestEv
            = [.addDestToken q]
        ∧ (∃ pre post, (submitBridgeTransaction env q).1
            = pre ++ [.addDestToken q] ++ post ∧ pre.filter isTabEv = [])
        ∧ (∀ e0, env.addDestToken q = .error e0 →
            (submitBridgeTransaction env q).1.filter isTabEv = []
            ∧ (submitBridgeTransaction env q).2 = .error e0)) := by
  rcases submit_cases env q with
      ⟨a2, e, hA2, hM, hBR, hEq⟩
    | ⟨ev1, am, e, hS, hB, hBR, hEq⟩
    | ⟨ev1, am, bm, hS, hB, hBR, hEq⟩
  · constructor
    · intro _
      rw [hEq]
      simp [isAddDestEv]
    · intro _ bm hBR2
      rw [hBR] at hBR2
      cases hBR2
  · constructor
    · intro _
      rw [hEq]
      simp [List.filter_append,
        approvalStep_filter_ne hS isAddDestEv (fun _ _ => rfl), isAddDestEv]
    · intro _ bm hBR2
      rw [hBR] at hBR2
      cases hBR2
  · constructor
    · intro hz
      have hAB := afterBridge_dest_zero env q bm hz
      rw [hEq, hAB]
      simp [List.filter_append,
        approvalStep_filter_ne hS isAddDestEv (fun _ _ => rfl),
        pollEvents_filter_ne q bm isAddDestEv (fun _ _ _ _ => rfl),
        srcTokenEvents_filter_ne q isAddDestEv rfl, isAddDestEv]
    · intro hnz bm2 _
      rcases hD : env.addDestToken q with e0 | u
      · have hAB := afterBridge_dest_err env q bm e0 hnz hD
        have hT1 : (submitBridgeTransaction env q).1
            = ev1 ++ [.bridgeTx q (am.map TransactionMeta.id)]
                ++ (pollEvents q bm ++ srcTokenEvents q
                    ++ [.addDestToken q]) := by
          rw [hEq, hAB]
        have hT2 : (submitBridgeTransaction env q).2 = .error e0 := by
          rw [hEq, hAB]
        refine ⟨?_, ?_, ?_⟩
        · rw [hT1]
          simp [List.filter_append,
            approvalStep_filter_ne hS isAddDestEv (fun _ _ => rfl),
            pollEvents_filter_ne q bm isAddDestEv (fun _ _ _ _ => rfl),
            srcTokenEvents_filter_ne q isAddDestEv rfl, isAddDestEv]
        · refine ⟨ev1 ++ [.bridgeTx q (am.map TransactionMeta.id)]
              ++ pollEvents q bm ++ srcTokenEvents q, [], ?_, ?_⟩
          · rw [hT1]
            simp [List.append_assoc]
          · simp [List.filter_append,
              approvalStep_filter_ne hS isTabEv (fun _ _ => rfl),
              pollEvents_filter_ne q bm isTabEv (fun _ _ _ _ => rfl),
              srcTokenEvents_filter_ne q isTabEv rfl, isTabEv]
        · intro e1 hE1
          obtain rfl : e0 = e1 := Except.error.inj hE1
          refine ⟨?_, hT2⟩
          rw [hT1]
          simp [List.filter_append,
            approvalStep_filter_ne hS isTabEv (fun _ _ => rfl),
            pollEvents_filter_ne q bm isTabEv (fun _ _ _ _ => rfl),
            srcTokenEvents_filter_ne q isTabEv rfl, isTabEv, isAddDestEv]
      · cases u
        have hAB := afterBridge_dest_ok env q bm hnz hD
        have hT1 : (submitBridgeTransaction env q).1
            = ev1 ++ [.bridgeTx q (am.map TransactionMeta.id)]
                ++ (pollEvents q bm ++ srcTokenEvents q
                    ++ [.addDestToken q, .setActiveTab "activity",
                        .navigate DEFAULT_ROUTE]) := by
          rw [hEq, hAB]
        refine ⟨?_, ?_, ?_⟩
        · rw [hT1]
          simp [List.filter_append,
            approvalStep_filter_ne hS isAddDestEv (fun _ _ => rfl),
            pollEvents_filter_ne q bm isAddDestEv (fun _ _ _ _ => rfl),
            srcTokenEvents_filter_ne q isAddDestEv rfl, isAddDestEv]
        · refine ⟨ev1 ++ [.bridgeTx q (am.map TransactionMeta.id)]
              ++ pollEvents q bm ++ srcTokenEvents q,
            [.setActiveTab "activity", .navigate DEFAULT_ROUTE], ?_, ?_⟩
          · rw [hT1]
            simp [List.append_assoc]
          · simp [List.filter_append,
              approvalStep_filter_ne hS isTabEv (fun _ _ => rfl),
              pollEvents_filter_ne q bm isTabEv (fun _ _ _ _ => rfl),
              srcTokenEvents_filter_ne q isTabEv rfl, isTabEv]
        · intro e1 hE1
          cases hE1

/-- C8 witness: the native-destination sample quote registers no destination
token; with the rejecting destination registration, the sample quote
registers it exactly once, no tab dispatch occurs, and the run rejects with
the same error. -/
theorem dest_token_policy_witness :
    (submitBridgeTransaction sampleEnv sampleQuoteNoApproval).1.filter
        isAddDestEv = []
    ∧ (submitBridgeTransaction sampleEnvDestFail sampleQuote).1.filter
        isAddDestEv = [.addDestToken sampleQuote]
    ∧ (submitBridgeTransaction sampleEnvDestFail sampleQuote).1.filter
        isTabEv = []
    ∧ (submitBridgeTransaction sampleEnvDestFail sampleQuote).2
        = .error "dest add failed" :=
  ⟨(dest_token_policy sampleEnv sampleQuoteNoApproval).1 rfl,
   ((dest_token_policy sampleEnvDestFail sampleQuote).2 (by decide)
      sampleBridgeMeta rfl).1,
   (((dest_token_policy sampleEnvDestFail sampleQuote).2 (by decide)
      sampleBridgeMeta rfl).2.2 "dest add failed" rfl).1,
   (((dest_token_policy sampleEnvDestFail sampleQuote).2 (by decide)
      sampleBridgeMeta rfl).2.2 "dest add failed" rfl).2⟩

end BridgeSubmit

namespace BankPage

/-- C9: `isIban` is not total at its declared interface — on an absent
coordinate it raises instead of returning a boolean — while it does return a
boolean on every present coordinate, and `accountNumber` is total (it never
raises, because it guards the absent case before delegating to `isIban`). -/
theorem isIban_partial_accountNumber_total :
    (∃ e, isIban none = .error e)
    ∧ (∀ c, ∃ b, isIban (some c) = .ok b)
    ∧ (∀ co, ∃ v, accountNumber co = .ok v) := by
  refine ⟨⟨_, rfl⟩, fun c => ⟨_, rfl⟩, fun co => ?_⟩
  rcases co with _ | c
  · exact ⟨_, rfl⟩
  · cases c with
    | iban i => exact ⟨_, rfl⟩
    | scan a sc => exact ⟨_, rfl⟩

/-- Hex encoding doubles the length: two hex digits per byte. -/
lemma bytesToHex_length (bs : List Nat) :
    (bytesToHex bs).length = 2 * bs.length := by
  induction bs with
  | nil => rfl
  | cons b bs ih =>
    have hb : (byteToHex b).length = 2 := rfl
    simp only [bytesToHex, String.length_append, hb, ih, List.length_cons]
    omega

/-- A freshly generated key is never the empty string: it starts with `0x`. -/
lemma freshHarbourKey_ne_empty (e : List Nat) : freshHarbourKey e ≠ "" := by
  intro h
  have hl := congrArg String.length h
  have h2 : ("0x" : String).length = 2 := rfl
  have h0 : ("" : String).length = 0 := rfl
  rw [freshHarbourKey, String.length_append, h2, h0] at hl
  omega

/-- A freshly generated key is truthy: its `isEmpty` test is `false`. -/
lemma freshHarbourKey_isEmpty (e : List Nat) :
    (freshHarbourKey e).isEmpty = false := by
  cases hE : (freshHarbourKey e).isEmpty
  · rfl
  · exact absurd ((String.isEmpty_iff _).mp hE) (freshHarbourKey_ne_empty e)

/-- Two successive calls (no interleaving writer) agree on the private key:
whatever the first call leaves in storage, the second call returns it. -/
lemma getHarbourWallet_second_call (s : Option String) (e1 e2 : List Nat) :
    ((getHarbourWallet ((getHarbourWallet s e1).2) e2).1).privateKey
      = ((getHarbourWallet s e1).1).privateKey := by
  rcases s with _ | k
  · simp [getHarbourWallet, freshHarbourKey_isEmpty]
  · cases hk : k.isEmpty
    · simp [getHarbourWallet, hk]
    · simp [getHarbourWallet, hk, freshHarbourKey_isEmpty]

/-- C10 counterexample: an empty stored `harbourKey` is "held" by storage yet
falsy, so the call does not return a wallet built from it and does not leave
storage unchanged — it generates and stores a fresh key instead. -/
theorem getHarbourWallet_stored_key_counterexample :
    getHarbourWallet (some "") [0] = (⟨"0x00"⟩, some "0x00")
    ∧ (getHarbourWallet (some "") [0]).1.privateKey ≠ ""
    ∧ (getHarbourWallet (some "") [0]).2 ≠ some "" := by
  refine ⟨rfl, ?_, ?_⟩ <;> decide

/-- C10 (amended): if storage holds a *non-empty* (truthy) `harbourKey`, the
call returns a wallet built from exactly that key and leaves storage
unchanged; if the key is absent — or present but empty — it generates the
fresh key from the 32 random bytes, stores it, and returns its wallet; hence
any two successive calls with no interleaving writer return wallets with the
same private key; and a fresh key from 32 bytes is 66 characters
(`0x` + 64 hex digits). -/
theorem getHarbourWallet_spec :
    (∀ k e, k.isEmpty = false →
        getHarbourWallet (some k) e = (⟨k⟩, some k))
    ∧ (∀ e, getHarbourWallet none e
        = (⟨freshHarbourKey e⟩, some (freshHarbourKey e)))
    ∧ (∀ e, getHarbourWallet (some "") e
        = (⟨freshHarbourKey e⟩, some (freshHarbourKey e)))
    ∧ (∀ s e1 e2,
        ((getHarbourWallet ((getHarbourWallet s e1).2) e2).1).privateKey
          = ((getHarbourWallet s e1).1).privateKey)
    ∧ (∀ e, e.length = 32 → (freshHarbourKey e).length = 66) := by
  refine ⟨?_, ?_, ?_, getHarbourWallet_second_call, ?_⟩
  · intro k e hk
    simp [getHarbourWallet, hk]
  · intro e
    simp [getHarbourWallet]
  · intro e
    have hT : ("" : String).isEmpty = true := rfl
    simp [getHarbourWallet, hT]
  · intro e he
    have h2 : ("0x" : String).length = 2 := rfl
    rw [freshHarbourKey, String.length_append, h2, bytesToHex_length, he]

/-- C10 witness: a truthy stored key round-trips unchanged; starting from the
falsy empty key, two successive calls agree on the private key; a fresh key
from 32 bytes has 66 characters. -/
theorem getHarbourWallet_spec_witness :
    getHarbourWallet (some "0xabc") [7] = (⟨"0xabc"⟩, some "0xabc")
    ∧ ((getHarbourWallet ((getHarbourWallet (some "") [1]).2) [2]).1).privateKey
        = ((getHarbourWallet (some "") [1]).1).privateKey
    ∧ (freshHarbourKey (List.replicate 32 0)).length = 66 :=
  ⟨getHarbourWallet_spec.1 "0xabc" [7] (by decide),
   getHarbourWallet_spec.2.2.2.1 (some "") [1] [2],
   getHarbourWallet_spec.2.2.2.2 (List.replicate 32 0) (by decide)⟩

end BankPage
